import Mathlib

/-!
Shallow embedding of `src/library/src/meta/heading.rs` from the typst
repository: the `HeadingElem` element and its capability implementations
(`Synthesize`, `Show`, `Finalize`, `Count`, `Refable`, `Outlinable`,
`LocalName`), together with the small amount of surrounding vocabulary
(style chains, contents, counters, callbacks) those implementations touch.

User-supplied callbacks (`Func`) are modelled as opaque identifiers whose
semantics is supplied by the evaluation context `Vt` (the Rust `call_vt`);
locations, spans and source errors are opaque data.
-/

/-- A language code, as in `typst::geom::Lang` (a short ISO code). -/
abbrev Lang := String

/-- A region code, as in `typst::geom::Region`. -/
abbrev Region := String

def Lang.ARABIC : Lang := "ar"

def Lang.BOKMAL : Lang := "nb"

def Lang.CHINESE : Lang := "zh"

def Lang.CZECH : Lang := "cs"

def Lang.DANISH : Lang := "da"

def Lang.DUTCH : Lang := "nl"

def Lang.FRENCH : Lang := "fr"

def Lang.GERMAN : Lang := "de"

def Lang.ITALIAN : Lang := "it"

def Lang.NYNORSK : Lang := "nn"

def Lang.POLISH : Lang := "pl"

def Lang.PORTUGUESE : Lang := "pt"

def Lang.RUSSIAN : Lang := "ru"

def Lang.SLOVENIAN : Lang := "sl"

def Lang.SPANISH : Lang := "es"

def Lang.SWEDISH : Lang := "sv"

def Lang.UKRAINIAN : Lang := "uk"

def Lang.VIETNAMESE : Lang := "vi"

def Lang.ENGLISH : Lang := "en"

/-- `typst::util::option_eq`: compares an `Option` with a plain value,
`none` being unequal to everything. -/
def option_eq (lhs : Option Region) (rhs : Region) : Bool :=
  match lhs with
  | some v => v = rhs
  | none => false

/-- An em-length (`typst::geom::Em`), embedded as a rational number of ems. -/
abbrev Em := Rat

/-- A font weight; the fragment only uses `FontWeight::BOLD`. -/
inductive FontWeight where
  | regular
  | bold
deriving DecidableEq, Repr

/-- A numbering pattern (`Numbering`), kept opaque: the fragment only stores
and forwards it. Embedded as the pattern string. -/
abbrev Numbering := String

/-- An opaque compilation-level error (`SourceError` payload). -/
abbrev SourceError := String

/-- An opaque post-layout location identifier (`typst::model::Location`). -/
abbrev Location := Nat

/-- An opaque source span (`typst::syntax::Span`). -/
abbrev Span := Nat

/-- A user-supplied callback (`typst::eval::Func`), modelled as an opaque
identifier; its behaviour is given by the evaluation context `Vt`. -/
abbrev Func := Nat

/-- `Smart<T>`: either `Auto` (context decides) or an explicit value. -/
inductive Smart (α : Type) where
  | auto
  | custom (v : α)
deriving DecidableEq, Repr

/-- A vertical spacing element (`VElem::block_around(..)`), as stored by
`BlockElem::set_above/set_below` in `finalize`. -/
inductive VElem where
  | blockAround (amount : Em)
deriving DecidableEq, Repr

/-- The residual style map built by `Finalize::finalize`: the `Styles` value
onto which `TextElem::set_size/set_weight` and
`BlockElem::set_above/set_below/set_sticky` entries are pushed. -/
structure Styles where
  textSize : Option Em := none
  textWeight : Option FontWeight := none
  blockAbove : Option VElem := none
  blockBelow : Option VElem := none
  blockSticky : Option Bool := none
deriving DecidableEq, Repr

/-- Content values (`typst::model::Content`), restricted to the constructors
the heading fragment actually produces. `elem tag` stands for a whole element
packed as content (used only as an opaque callback argument). -/
inductive Content where
  | empty
  | text (s : String)
  | seq (a b : Content)
  | hElem (amount : Em) (weak : Bool)
  | spaceElem
  | counterDisplayElem (numbering : Option Numbering) (both : Bool)
  | spanned (c : Content) (s : Span)
  | block (body : Option Content)
  | styled (c : Content) (m : Styles)
  | elem (tag : String)

/-- `TextElem::packed`: plain text content. -/
def TextElem.packed (s : String) : Content := Content.text s

/-- The subset of `Value` the fragment passes to and receives from callbacks. -/
inductive Value where
  | none
  | content (c : Content)

/-- `Value::display`: conversion of a callback result to content. -/
def Value.display : Value → Content
  | Value.none => Content.empty
  | Value.content c => c

/-- A heading supplement (`meta::Supplement`): literal content or a callback. -/
inductive Supplement where
  | content (c : Content)
  | func (f : Func)

/-- A counter update event (`meta::CounterUpdate`); the heading fragment only
emits `Step`. -/
inductive CounterUpdate where
  | step (level : Nat)
  | set (value : List Nat)
deriving DecidableEq, Repr

/-- The evaluation context (`Vt`) as the heading fragment consumes it:
`callFunc` interprets callback identifiers (`Func::call_vt`), and
`counterAtDisplay loc numbering` is the composition
`Counter::of(HeadingElem::func()).at(vt, loc)?.display(vt, numbering)`
used by `Outlinable::outline`. Both are opaque external collaborators. -/
structure Vt where
  callFunc : Func → List Value → Except SourceError Value
  counterAtDisplay : Location → Numbering → Except SourceError Content

/-- `Func::call_vt`. -/
def Func.call_vt (f : Func) (vt : Vt) (args : List Value) : Except SourceError Value :=
  vt.callFunc f args

/-- The style chain as seen by the heading element: one optional override per
settable `HeadingElem` field, plus the text language/region that
`local_name_in` consults. Field resolution takes the element's own value
first, then the chain's override, then the static default. -/
structure StyleChain where
  level : Option Nat := none
  numbering : Option (Option Numbering) := none
  supplement : Option (Smart (Option Supplement)) := none
  outlined : Option Bool := none
  display : Option (Option Func) := none
  outline : Option (Option Func) := none
  lang : Lang := Lang.ENGLISH
  region : Option Region := none

/-- `StyleChain::default()`: the empty chain. -/
def StyleChain.default : StyleChain := {}

/-- The heading element. Each settable field is stored as an `Option`: `none`
means "not given/pushed on this node", so access falls back to the style
chain and then the static default, exactly as the `#[element]` macro's
generated accessors do. `location` is the externally assigned `Location`. -/
structure HeadingElem where
  level : Option Nat := none
  numbering : Option (Option Numbering) := none
  supplement : Option (Smart (Option Supplement)) := none
  outlined : Option Bool := none
  display : Option (Option Func) := none
  outline : Option (Option Func) := none
  body : Content
  span : Span := 0
  location : Option Location := none

/-- Accessor `self.level(styles)`: own value, else chain, else default `1`
(`NonZeroUsize::ONE`). -/
def HeadingElem.levelAt (e : HeadingElem) (styles : StyleChain) : Nat :=
  e.level.getD (styles.level.getD 1)

/-- Accessor `self.numbering(styles)`: own value, else chain, else `None`. -/
def HeadingElem.numberingAt (e : HeadingElem) (styles : StyleChain) : Option Numbering :=
  e.numbering.getD (styles.numbering.getD none)

/-- Accessor `self.supplement(styles)`: own value, else chain, else `Auto`. -/
def HeadingElem.supplementAt (e : HeadingElem) (styles : StyleChain) : Smart (Option Supplement) :=
  e.supplement.getD (styles.supplement.getD Smart.auto)

/-- Accessor `self.outlined(styles)`: own value, else chain, else `true`. -/
def HeadingElem.outlinedAt (e : HeadingElem) (styles : StyleChain) : Bool :=
  e.outlined.getD (styles.outlined.getD true)

/-- Accessor `self.display(styles)`: own value, else chain, else `None`. -/
def HeadingElem.displayAt (e : HeadingElem) (styles : StyleChain) : Option Func :=
  e.display.getD (styles.display.getD none)

/-- Accessor `self.outline(styles)`: own value, else chain, else `None`. -/
def HeadingElem.outlineAt (e : HeadingElem) (styles : StyleChain) : Option Func :=
  e.outline.getD (styles.outline.getD none)

/-- `LocalName::local_name for HeadingElem`: the localized default supplement
noun. The receiver is unused by the Rust implementation, so it is omitted. -/
def LocalName.local_name (lang : Lang) (region : Option Region) : String :=
  if lang = Lang.ARABIC then "الفصل"
  else if lang = Lang.BOKMAL then "Kapittel"
  else if lang = Lang.CHINESE ∧ option_eq region "TW" then "小節"
  else if lang = Lang.CHINESE then "小节"
  else if lang = Lang.CZECH then "Kapitola"
  else if lang = Lang.DANISH then "Afsnit"
  else if lang = Lang.DUTCH then "Hoofdstuk"
  else if lang = Lang.FRENCH then "Chapitre"
  else if lang = Lang.GERMAN then "Abschnitt"
  else if lang = Lang.ITALIAN then "Sezione"
  else if lang = Lang.NYNORSK then "Kapittel"
  else if lang = Lang.POLISH then "Sekcja"
  else if lang = Lang.PORTUGUESE then "Seção"
  else if lang = Lang.RUSSIAN then "Раздел"
  else if lang = Lang.SLOVENIAN then "Poglavje"
  else if lang = Lang.SPANISH then "Sección"
  else if lang = Lang.SWEDISH then "Kapitel"
  else if lang = Lang.UKRAINIAN then "Розділ"
  else if lang = Lang.VIETNAMESE then "Phần"
  else "Section"

/-- The languages with a dedicated (non-fallback) entry in `local_name`. -/
def dedicatedLangs : List Lang :=
  [Lang.ARABIC, Lang.BOKMAL, Lang.CHINESE, Lang.CZECH, Lang.DANISH,
   Lang.DUTCH, Lang.FRENCH, Lang.GERMAN, Lang.ITALIAN, Lang.NYNORSK,
   Lang.POLISH, Lang.PORTUGUESE, Lang.RUSSIAN, Lang.SLOVENIAN, Lang.SPANISH,
   Lang.SWEDISH, Lang.UKRAINIAN, Lang.VIETNAMESE]

/-- Modelled from the spec: `Supplement::resolve` lives outside `src/` (the
generic callback subsystem is an external collaborator per the spec). A
content supplement resolves to itself; a callback supplement is invoked with
the given arguments and its displayed result is returned, propagating
failure as a compilation-level error. -/
def Supplement.resolve (vt : Vt) (s : Supplement) (args : List Value) :
    Except SourceError Content :=
  match s with
  | Supplement.content c => Except.ok c
  | Supplement.func f => (f.call_vt vt args).map Value.display

/-- The six `push_*` calls at the end of `Synthesize::synthesize`: each field
is overwritten with its style-resolved value, the supplement with the
resolved content. -/
def HeadingElem.pushAll (e : HeadingElem) (styles : StyleChain) (supplement : Content) :
    HeadingElem :=
  { e with
    level := some (e.levelAt styles),
    numbering := some (e.numberingAt styles),
    supplement := some (Smart.custom (some (Supplement.content supplement))),
    outlined := some (e.outlinedAt styles),
    display := some (e.displayAt styles),
    outline := some (e.outlineAt styles) }

/-- `Synthesize::synthesize for HeadingElem`. Rust mutates `&mut self` and
returns `SourceResult<()>`; this is embedded as a pair of the result and the
node after the call. The supplement is resolved first (this is the only
fallible step and precedes every `push_*`), then all fields are pushed. The
element cloned into the callback's argument list is modelled opaquely as
`Content.elem "heading"`, since this `Content` type does not embed whole
elements. -/
def Synthesize.synthesize (vt : Vt) (e : HeadingElem) (styles : StyleChain) :
    Except SourceError Unit × HeadingElem :=
  match (match e.supplementAt styles with
    | Smart.auto =>
        Except.ok (TextElem.packed (LocalName.local_name styles.lang styles.region))
    | Smart.custom none => Except.ok Content.empty
    | Smart.custom (some s) =>
        s.resolve vt [Value.content (Content.elem "heading")]) with
  | Except.error err => (Except.error err, e)
  | Except.ok supplement => (Except.ok (), e.pushAll styles supplement)

/-- `Show::show for HeadingElem`. -/
def Show.show (vt : Vt) (e : HeadingElem) (styles : StyleChain) :
    Except SourceError Content :=
  let body := e.body
  let numbers := (e.numberingAt styles).map (fun numbering =>
    Content.spanned (Content.counterDisplayElem (some numbering) false) e.span)
  let displayFn := e.displayAt styles
  let realized : Except SourceError Content :=
    match numbers, displayFn with
    | some numbers, none =>
        Except.ok (Content.seq (Content.seq numbers (Content.hElem (3/10) true)) body)
    | some numbers, some d =>
        (d.call_vt vt [Value.content numbers, Value.content body]).map Value.display
    | none, some f =>
        (f.call_vt vt [Value.none, Value.content body]).map Value.display
    | none, none => Except.ok e.body
  realized.map (fun r => Content.block (some r))

/-- `Finalize::finalize for HeadingElem`: wraps the realized content in a
style map with the level-scaled text size, bold weight, block spacing and
stickiness. -/
def Finalize.finalize (e : HeadingElem) (realized : Content) (styles : StyleChain) :
    Content :=
  let level := e.levelAt styles
  let scale : Rat := if level = 1 then 14/10 else if level = 2 then 12/10 else 1
  let size : Em := scale
  let above : Em := (if level = 1 then (18/10 : Rat) else 144/100) / scale
  let below : Em := (75/100 : Rat) / scale
  Content.styled realized
    { textSize := some size,
      textWeight := some FontWeight.bold,
      blockAbove := some (VElem.blockAround above),
      blockBelow := some (VElem.blockAround below),
      blockSticky := some true }

/-- `Count::update for HeadingElem`: `Step(level)` at the default style chain
when numbering is active, else no event. -/
def Count.update (e : HeadingElem) : Option CounterUpdate :=
  if (e.numberingAt StyleChain.default).isSome then
    some (CounterUpdate.step (e.levelAt StyleChain.default))
  else
    none

/-- `Refable::supplement for HeadingElem`: the resolved supplement content
after synthesis, empty content otherwise. -/
def Refable.supplement (e : HeadingElem) : Content :=
  match e.supplementAt StyleChain.default with
  | Smart.custom (some (Supplement.content c)) => c
  | _ => Content.empty

/-- An outcome of running `Outlinable::outline`: the Rust code can panic (it
unwraps the node's location) as well as return a `SourceResult` error. -/
inductive RunError where
  | panicked
  | srcError (e : SourceError)
deriving DecidableEq, Repr

/-- `Outlinable::outline for HeadingElem`: `None` when not outlined;
otherwise the numbers (if numbering is active, unwrapping the location and
querying the counter) composed with the body, or the user outline callback's
result. -/
def Outlinable.outline (vt : Vt) (e : HeadingElem) : Except RunError (Option Content) :=
  let styles := StyleChain.default
  if e.outlinedAt styles = false then Except.ok none
  else
    let numbersRes : Except RunError (Option Content) :=
      match e.numberingAt styles with
      | none => Except.ok none
      | some numbering =>
        match e.location with
        | none => Except.error RunError.panicked
        | some loc =>
          ((vt.counterAtDisplay loc numbering).map some).mapError RunError.srcError
    match numbersRes with
    | Except.error err => Except.error err
    | Except.ok numbers =>
      let body := e.body
      let outlineFn := e.outlineAt styles
      match numbers, outlineFn with
      | some numbers, none =>
          Except.ok (some (Content.seq (Content.seq numbers Content.spaceElem) body))
      | some numbers, some f =>
          ((f.call_vt vt [Value.content numbers, Value.content body]).map
            (fun v => some v.display)).mapError RunError.srcError
      | none, some f =>
          ((f.call_vt vt [Value.none, Value.content body]).map
            (fun v => some v.display)).mapError RunError.srcError
      | none, none => Except.ok (some e.body)

/-! ## Claim theorems -/

/-- A trivial evaluation context for concrete witnesses: every callback
returns `Value.none` and every counter query displays the pattern. -/
def vt0 : Vt where
  callFunc := fun _ _ => Except.ok Value.none
  counterAtDisplay := fun _ numbering => Except.ok (Content.text numbering)

/-- An evaluation context whose callbacks always fail. -/
def vtFail : Vt where
  callFunc := fun _ _ => Except.error "callback failed"
  counterAtDisplay := fun _ _ => Except.error "callback failed"

/-- C1: `Count::update` returns `Some(Step(level))` — with `level` the
heading's own level field — exactly when the heading's numbering field is
set; a heading whose numbering is none contributes no counter event. -/
theorem count_update_step_iff_numbering (e : HeadingElem) (l : Nat)
    (h : e.level = some l) :
    Count.update e = some (CounterUpdate.step l) ↔
      (e.numberingAt StyleChain.default).isSome := by
  unfold Count.update
  constructor
  · intro hu
    by_contra hn
    simp [hn] at hu
  · intro hn
    obtain ⟨n, hn'⟩ := Option.isSome_iff_exists.mp hn
    simp [hn', HeadingElem.levelAt, h]

/-- Witness for C1 at a concrete heading with level 2 and numbering "1.". -/
theorem count_update_step_iff_numbering_witness :
    ({ level := some 2, numbering := some (some "1."), body := Content.empty } :
        HeadingElem).level = some 2 ∧
      (Count.update
          { level := some 2, numbering := some (some "1."), body := Content.empty } =
          some (CounterUpdate.step 2) ↔
        (HeadingElem.numberingAt
          { level := some 2, numbering := some (some "1."), body := Content.empty }
          StyleChain.default).isSome) :=
  ⟨rfl, count_update_step_iff_numbering _ 2 rfl⟩

/-- C3: `Outlinable::outline` does not depend on the heading's `display`
field: two headings identical except for `display`, queried in the same
evaluation context, yield the same outline result — an in-place rendering
override changes `Show::show`'s output only. -/
theorem outline_independent_of_display (vt : Vt) (e : HeadingElem)
    (d₁ d₂ : Option Func) :
    Outlinable.outline vt { e with display := d₁ } =
      Outlinable.outline vt { e with display := d₂ } := rfl

/-- C4: `Outlinable::outline` returns `Ok(None)` exactly when the heading's
`outlined` field resolves to `false`; an outlined heading never yields an
omitted entry, whatever its level. -/
theorem outline_none_iff_not_outlined (vt : Vt) (e : HeadingElem) :
    Outlinable.outline vt e = Except.ok none ↔
      e.outlinedAt StyleChain.default = false := by
  unfold Outlinable.outline
  cases ho : e.outlinedAt StyleChain.default
  · simp [ho]
  · simp only [ho, Bool.true_eq_false, if_false, iff_false]
    cases hn : e.numberingAt StyleChain.default with
    | none =>
      cases hf : e.outlineAt StyleChain.default with
      | none => simp [ho, hn, hf]
      | some f =>
        simp only [ho, hn, hf]
        cases hc : f.call_vt vt [Value.none, Value.content e.body] <;>
          simp [ho, hc, Except.map, Except.mapError]
    | some numbering =>
      cases hl : e.location with
      | none => simp [ho, hn, hl]
      | some loc =>
        simp only [ho, hn, hl]
        cases hq : vt.counterAtDisplay loc numbering with
        | error err => simp [ho, hn, hl, hq, Except.map, Except.mapError]
        | ok numbers =>
          cases hf : e.outlineAt StyleChain.default with
          | none => simp [ho, hn, hl, hq, hf, Except.map, Except.mapError]
          | some f =>
            simp only [ho, hn, hl, hq, hf, Except.map, Except.mapError]
            cases hc : f.call_vt vt [Value.content numbers, Value.content e.body] <;>
              simp [ho, hn, hl, hq, hf, hc, Except.map, Except.mapError]

/-- C7: `Finalize::finalize` returns the realized content unchanged, wrapped
in a style map that sets bold text weight and a text size of 1.4em at level
1, 1.2em at level 2, and 1em at every other level (in particular every
level at or beyond 3); it never re-invokes `Show::show` (it takes no
evaluation context at all). -/
theorem finalize_wraps_with_level_styles (e : HeadingElem) (realized : Content)
    (styles : StyleChain) :
    ∃ m : Styles,
      Finalize.finalize e realized styles = Content.styled realized m ∧
      m.textWeight = some FontWeight.bold ∧
      m.blockSticky = some true ∧
      m.textSize = some (if e.levelAt styles = 1 then (14/10 : Em)
        else if e.levelAt styles = 2 then 12/10 else 1) :=
  ⟨_, rfl, rfl, rfl, rfl⟩

/-- C8: `local_name` is total by construction, and every language without a
dedicated entry falls back to the English default label "Section", for any
region. -/
theorem local_name_fallback (lang : Lang) (region : Option Region)
    (h : lang ∉ dedicatedLangs) :
    LocalName.local_name lang region = "Section" := by
  unfold LocalName.local_name
  simp only [dedicatedLangs, List.mem_cons, List.not_mem_nil, or_false, not_or] at h
  obtain ⟨h1, h2, h3, h4, h5, h6, h7, h8, h9, h10, h11, h12, h13, h14, h15, h16, h17, h18⟩ := h
  simp [h1, h2, h3, h4, h5, h6, h7, h8, h9, h10, h11, h12, h13, h14, h15, h16, h17, h18]

/-- Witness for C8: Turkish has no dedicated entry and yields "Section". -/
theorem local_name_fallback_witness :
    ("tr" : Lang) ∉ dedicatedLangs ∧
      LocalName.local_name "tr" none = "Section" :=
  ⟨by decide, local_name_fallback "tr" none (by decide)⟩

/-- C10: on an outlined heading with active numbering but no assigned
location, `Outlinable::outline` panics (it unwraps the location) instead of
returning an error value. -/
theorem outline_panics_without_location (vt : Vt) (e : HeadingElem)
    (ho : e.outlinedAt StyleChain.default = true)
    (hn : (e.numberingAt StyleChain.default).isSome)
    (hl : e.location = none) :
    Outlinable.outline vt e = Except.error RunError.panicked := by
  unfold Outlinable.outline
  obtain ⟨n, hn'⟩ := Option.isSome_iff_exists.mp hn
  simp [ho, hn', hl]

/-- Witness for C10: a default heading (outlined by default) with numbering
set and no location panics in `outline`. -/
theorem outline_panics_without_location_witness :
    ({ numbering := some (some "1."), body := Content.empty } :
        HeadingElem).outlinedAt StyleChain.default = true ∧
      (HeadingElem.numberingAt
        { numbering := some (some "1."), body := Content.empty }
        StyleChain.default).isSome ∧
      ({ numbering := some (some "1."), body := Content.empty } :
        HeadingElem).location = none ∧
      Outlinable.outline vt0 { numbering := some (some "1."), body := Content.empty } =
        Except.error RunError.panicked :=
  ⟨rfl, rfl, rfl, outline_panics_without_location vt0 _ rfl rfl rfl⟩

/-- The first argument `Show::show` hands a display override: the generated
numbering content when numbering is active, `Value::None` otherwise. -/
def numbersValue (e : HeadingElem) (styles : StyleChain) : Value :=
  match e.numberingAt styles with
  | some numbering =>
      Value.content (Content.spanned (Content.counterDisplayElem (some numbering) false) e.span)
  | none => Value.none

/-- C2: when a display override is present, `Show::show` invokes it with
(generated-numbering-or-none, body) and uses its displayed result verbatim,
wrapped only in a block; the built-in number/gap/body composition is skipped
entirely. -/
theorem show_display_override (vt : Vt) (e : HeadingElem) (styles : StyleChain)
    (f : Func) (h : e.displayAt styles = some f) :
    Show.show vt e styles =
      (f.call_vt vt [numbersValue e styles, Value.content e.body]).map
        (fun v => Content.block (some v.display)) := by
  unfold Show.show numbersValue
  cases hn : e.numberingAt styles with
  | none =>
    simp only [hn, h, Option.map_none]
    cases hc : f.call_vt vt [Value.none, Value.content e.body] <;>
      simp [hc, Except.map]
  | some numbering =>
    simp only [hn, h, Option.map_some]
    cases hc : f.call_vt vt
        [Value.content (Content.spanned (Content.counterDisplayElem (some numbering) false) e.span),
         Value.content e.body] <;>
      simp [hc, Except.map]

/-- Witness for C2 at a numbered heading with display override `7`. -/
theorem show_display_override_witness :
    ({ numbering := some (some "1."), display := some (some 7),
        body := Content.text "T" } : HeadingElem).displayAt StyleChain.default = some 7 ∧
      Show.show vt0
          { numbering := some (some "1."), display := some (some 7),
            body := Content.text "T" } StyleChain.default =
        (Func.call_vt 7 vt0
            [numbersValue
              { numbering := some (some "1."), display := some (some 7),
                body := Content.text "T" } StyleChain.default,
             Value.content (Content.text "T")]).map
          (fun v => Content.block (some v.display)) :=
  ⟨rfl, show_display_override vt0 _ StyleChain.default 7 rfl⟩

/-- C5: if resolving a user-supplied supplement callback fails, synthesize
returns that error and the heading is left exactly in its pre-synthesis
state — no field has been pushed. -/
theorem synthesize_error_no_mutation (vt : Vt) (e : HeadingElem) (styles : StyleChain)
    (err : SourceError)
    (h : (Synthesize.synthesize vt e styles).1 = Except.error err) :
    (Synthesize.synthesize vt e styles).2 = e := by
  unfold Synthesize.synthesize at h ⊢
  cases hs : e.supplementAt styles with
  | auto => simp [hs] at h
  | custom o =>
    cases o with
    | none => simp [hs] at h
    | some s =>
      simp only [hs] at h ⊢
      cases hr : s.resolve vt [Value.content (Content.elem "heading")] with
      | error er => simp [hr]
      | ok c => simp [hr] at h

/-- Witness for C5: a callback supplement failing under `vtFail` leaves the
node unchanged. -/
theorem synthesize_error_no_mutation_witness :
    (Synthesize.synthesize vtFail
        { supplement := some (Smart.custom (some (Supplement.func 0))),
          body := Content.empty } StyleChain.default).1 =
      Except.error "callback failed" ∧
      (Synthesize.synthesize vtFail
          { supplement := some (Smart.custom (some (Supplement.func 0))),
            body := Content.empty } StyleChain.default).2 =
        { supplement := some (Smart.custom (some (Supplement.func 0))),
          body := Content.empty } :=
  ⟨rfl, synthesize_error_no_mutation vtFail _ StyleChain.default "callback failed" rfl⟩

/-- C6: synthesize is idempotent: re-running it with the same context and
style chain on an already-synthesized node reproduces that node exactly (and
the embedding's synthesize never touches counter state: the evaluation
context is read-only). -/
theorem synthesize_idempotent (vt : Vt) (e e' : HeadingElem) (styles : StyleChain)
    (h : Synthesize.synthesize vt e styles = (Except.ok (), e')) :
    Synthesize.synthesize vt e' styles = (Except.ok (), e') := by
  unfold Synthesize.synthesize at h
  cases hs : e.supplementAt styles with
  | auto =>
    simp only [hs, Prod.mk.injEq, true_and] at h
    subst h
    rfl
  | custom o =>
    cases o with
    | none =>
      simp only [hs, Prod.mk.injEq, true_and] at h
      subst h
      rfl
    | some s =>
      cases hr : s.resolve vt [Value.content (Content.elem "heading")] with
      | error er => simp [hs, hr, Prod.mk.injEq] at h
      | ok c =>
        simp only [hs, hr, Prod.mk.injEq, true_and] at h
        subst h
        rfl

/-- Witness for C6: a default heading synthesized under `vt0` is a fixed
point of a second synthesis. -/
theorem synthesize_idempotent_witness :
    Synthesize.synthesize vt0 { body := Content.text "B" } StyleChain.default =
      (Except.ok (), HeadingElem.pushAll { body := Content.text "B" }
        StyleChain.default (Content.text "Section")) ∧
      Synthesize.synthesize vt0
          (HeadingElem.pushAll { body := Content.text "B" } StyleChain.default
            (Content.text "Section")) StyleChain.default =
        (Except.ok (), HeadingElem.pushAll { body := Content.text "B" }
          StyleChain.default (Content.text "Section")) :=
  ⟨rfl, synthesize_idempotent vt0 { body := Content.text "B" }
    (HeadingElem.pushAll { body := Content.text "B" } StyleChain.default
      (Content.text "Section")) StyleChain.default rfl⟩

/-- C9: a successful synthesize always leaves the supplement field holding
`Smart::Custom(Some(Supplement::Content(..)))`, so `Refable::supplement`
returns that content and never takes the empty-content fallback branch. -/
theorem synthesized_supplement_custom_content (vt : Vt) (e e' : HeadingElem)
    (styles : StyleChain)
    (h : Synthesize.synthesize vt e styles = (Except.ok (), e')) :
    ∃ c, e'.supplement = some (Smart.custom (some (Supplement.content c))) ∧
      Refable.supplement e' = c := by
  unfold Synthesize.synthesize at h
  cases hs : e.supplementAt styles with
  | auto =>
    simp only [hs, Prod.mk.injEq, true_and] at h
    exact h ▸ ⟨_, rfl, rfl⟩
  | custom o =>
    cases o with
    | none =>
      simp only [hs, Prod.mk.injEq, true_and] at h
      exact h ▸ ⟨_, rfl, rfl⟩
    | some s =>
      cases hr : s.resolve vt [Value.content (Content.elem "heading")] with
      | error er => simp [hs, hr, Prod.mk.injEq] at h
      | ok c =>
        simp only [hs, hr, Prod.mk.injEq, true_and] at h
        exact h ▸ ⟨c, rfl, rfl⟩

/-- Witness for C9 at a default heading synthesized under `vt0`. -/
theorem synthesized_supplement_custom_content_witness :
    Synthesize.synthesize vt0 { body := Content.text "W" } StyleChain.default =
      (Except.ok (), HeadingElem.pushAll { body := Content.text "W" }
        StyleChain.default (Content.text "Section")) ∧
      ∃ c, (HeadingElem.pushAll { body := Content.text "W" } StyleChain.default
          (Content.text "Section")).supplement =
          some (Smart.custom (some (Supplement.content c))) ∧
        Refable.supplement (HeadingElem.pushAll { body := Content.text "W" }
          StyleChain.default (Content.text "Section")) = c :=
  ⟨rfl, synthesized_supplement_custom_content vt0 { body := Content.text "W" }
    (HeadingElem.pushAll { body := Content.text "W" } StyleChain.default
      (Content.text "Section")) StyleChain.default rfl⟩
